import Mathlib

/-!
Shallow embedding of the personal-finance data layer
(`src/data/database.py` and the monetary text parser of `src/main.py`).

Monetary values are Python `Decimal`s holding exact base-10 numbers; we model
them as exact rationals (`ℚ`).  `Decimal.quantize(Decimal('0.01'),
rounding=ROUND_HALF_UP)` rounds to 2 fractional digits with ties going away
from zero; `quantize2` below is that operation on `ℚ`.

The SQLite store is modelled as explicit lists of rows (one list per table),
with the repository functions of `database.py` translated into pure
state-passing functions `DB → … → DB × result`.  SQLite specifics that the
translation fixes:
* `INTEGER PRIMARY KEY AUTOINCREMENT` ids are modelled by `freshId`
  (one more than the largest id present);
* `COLLATE NOCASE` folds only ASCII letters, exactly like `Char.toLower`;
* TEXT comparison (`date BETWEEN ? AND ?`) is byte-wise, i.e. the
  lexicographic order on strings;
* a raised `sqlite3.IntegrityError` / `sqlite3.Error` is caught by every
  repository function, which rolls back and returns its failure value, so a
  constraint violation is modelled as "state unchanged, failure result".
-/

namespace PersonalFinance

/-- Round a rational to an integer, half away from zero: the behaviour of
Python's `ROUND_HALF_UP` rounding mode. -/
def roundHalfUp (x : ℚ) : ℤ :=
  if 0 ≤ x then ⌊x + 1/2⌋ else -⌊-x + 1/2⌋

/-- `d.quantize(Decimal('0.01'), rounding=ROUND_HALF_UP)`: round to exactly
2 fractional digits, ties away from zero. -/
def quantize2 (x : ℚ) : ℚ :=
  (roundHalfUp (100 * x) : ℚ) / 100

/-- The whitespace characters of Python's `str.isspace()` — the set
`str.strip()` removes: U+0009–U+000D, U+001C–U+0020, U+0085 (NEL),
U+00A0 (NBSP), U+1680, U+2000–U+200A, U+2028, U+2029, U+202F, U+205F and
U+3000 (CPython's `Py_UNICODE_ISSPACE` table). -/
def isPySpace (c : Char) : Bool :=
  (9 ≤ c.toNat && c.toNat ≤ 13) || (28 ≤ c.toNat && c.toNat ≤ 32) ||
  c.toNat == 133 || c.toNat == 160 || c.toNat == 5760 ||
  (8192 ≤ c.toNat && c.toNat ≤ 8202) || c.toNat == 8232 ||
  c.toNat == 8233 || c.toNat == 8239 || c.toNat == 8287 ||
  c.toNat == 12288

/-- Python `str.strip()`: drop leading and trailing whitespace. -/
def pyStrip (s : String) : String :=
  ⟨((s.data.dropWhile isPySpace).reverse.dropWhile isPySpace).reverse⟩

/-- Python `str.lower()` restricted to ASCII letters (which also matches
SQLite's `COLLATE NOCASE`, an ASCII-only case folding). -/
def pyLower (s : String) : String :=
  ⟨s.data.map Char.toLower⟩

/-- Equality under SQLite's `COLLATE NOCASE` (ASCII case-insensitive). -/
def nocaseEq (a b : String) : Bool :=
  pyLower a == pyLower b

/-- A row of the `accounts` table. -/
structure Account where
  id : Nat
  name : String
  initial_balance : ℚ
  deriving DecidableEq

/-- A row of the `categories` table (`type ∈ {expense, income}`). -/
structure Category where
  id : Nat
  name : String
  ctype : String
  deriving DecidableEq

/-- A row of the `transactions` table.  `category_id` is nullable. -/
structure Txn where
  id : Nat
  account_id : Nat
  date : String
  description : String
  amount : ℚ
  category_id : Option Nat
  deriving DecidableEq

/-- A row of the `budgets` table. -/
structure Budget where
  id : Nat
  category_id : Nat
  month : String
  amount : ℚ
  deriving DecidableEq

/-- The persistent store: the four business tables. -/
structure DB where
  accounts : List Account
  categories : List Category
  transactions : List Txn
  budgets : List Budget
  deriving DecidableEq

/-- `AUTOINCREMENT`: a fresh id strictly larger than every id in use. -/
def freshId (ids : List Nat) : Nat :=
  ids.foldr max 0 + 1

/-- `SELECT … FROM accounts WHERE id = ?`. -/
def findAccount (db : DB) (account_id : Nat) : Option Account :=
  db.accounts.find? (fun a => a.id == account_id)

/-- `SELECT … FROM categories WHERE id = ?`. -/
def findCategory (db : DB) (category_id : Nat) : Option Category :=
  db.categories.find? (fun c => c.id == category_id)

/-- `SELECT … FROM transactions WHERE id = ?`. -/
def findTxn (db : DB) (transaction_id : Nat) : Option Txn :=
  db.transactions.find? (fun t => t.id == transaction_id)

/-- `get_account_current_balance(account_id)` from `database.py`:
look the account up (missing account → `Decimal('0.00')`), read its initial
balance, add `SELECT SUM(amount) … WHERE account_id = ?` when that sum is
non-NULL (SQL `SUM` of no rows is NULL, in which case the Python code skips
the addition), and quantize once at the end. -/
def get_account_current_balance (db : DB) (account_id : Nat) : ℚ :=
  match findAccount db account_id with
  | none => 0
  | some a =>
    let txs := db.transactions.filter (fun t => t.account_id == account_id)
    let current := if txs.isEmpty then a.initial_balance
                   else a.initial_balance + (txs.map (fun t => t.amount)).sum
    quantize2 current

/-- `update_category(category_id, new_name, new_type)` from `database.py`.
Declines (state unchanged, `False`) when the cleaned name is empty, the
cleaned name lowers to `uncategorized`, the cleaned type is neither
`expense` nor `income`, the id is absent, the target row is the protected
`Uncategorized` row, or the new name collides with another row's name under
`COLLATE NOCASE` (an `IntegrityError` of the `UNIQUE` index, caught and
turned into `False` after rollback).  Otherwise updates the row in place. -/
def update_category (db : DB) (category_id : Nat) (new_name new_type : String) :
    DB × Bool :=
  let cleaned_name := pyStrip new_name
  let cleaned_type := pyLower (pyStrip new_type)
  if cleaned_name = "" then (db, false)
  else if pyLower cleaned_name = "uncategorized" then (db, false)
  else if ¬ (cleaned_type = "expense" ∨ cleaned_type = "income") then (db, false)
  else
    match findCategory db category_id with
    | none => (db, false)
    | some original_cat =>
      if pyLower original_cat.name = "uncategorized" then (db, false)
      else if db.categories.any
          (fun c => c.id != category_id && nocaseEq c.name cleaned_name) then
        (db, false)
      else
        ({ db with categories := db.categories.map (fun c =>
            if c.id == category_id then
              { c with name := cleaned_name, ctype := cleaned_type }
            else c) },
         true)

/-- `delete_category(category_id)` from `database.py`.  Declines when the id
is absent or the target row is the protected `Uncategorized` row; otherwise
deletes it, and the relational engine cascades: budget rows of the category
are deleted (`ON DELETE CASCADE`), transactions referencing it get a null
category (`ON DELETE SET NULL`). -/
def delete_category (db : DB) (category_id : Nat) : DB × Bool :=
  match findCategory db category_id with
  | none => (db, false)
  | some cat =>
    if pyLower cat.name = "uncategorized" then (db, false)
    else
      ({ db with
          categories := db.categories.filter (fun c => c.id != category_id),
          budgets := db.budgets.filter (fun b => b.category_id != category_id),
          transactions := db.transactions.map (fun t =>
            if t.category_id == some category_id then
              { t with category_id := none }
            else t) },
       true)

/-- The structural month check of `set_budget`:
`len(month_str) == 7 and month_str[4] == '-'`. -/
def monthOk (month_str : String) : Bool :=
  month_str.length == 7 && month_str.data.get? 4 == some '-'

/-- Does a budget row for this `(category_id, month)` key exist? -/
def budgetKeyed (category_id : Nat) (month_str : String) (b : Budget) : Bool :=
  b.category_id == category_id && b.month == month_str

/-- `set_budget(category_id, month_str, amount)` from `database.py`.
The stored amount is `max(Decimal('0.00'), amount)` quantized.  Declines when
the category id is absent, the category is not expense-typed, or the month
string fails the structural check; otherwise runs
`INSERT … ON CONFLICT(category_id, month) DO UPDATE SET amount = excluded.amount`,
i.e. updates the conflicting row in place or inserts a fresh one. -/
def set_budget (db : DB) (category_id : Nat) (month_str : String) (amount : ℚ) :
    DB × Bool :=
  let budget_amount := quantize2 (max 0 amount)
  match findCategory db category_id with
  | none => (db, false)
  | some cat =>
    if cat.ctype != "expense" then (db, false)
    else if ¬ monthOk month_str then (db, false)
    else if db.budgets.any (budgetKeyed category_id month_str) then
      ({ db with budgets := db.budgets.map (fun b =>
          if budgetKeyed category_id month_str b then
            { b with amount := budget_amount }
          else b) },
       true)
    else
      ({ db with budgets := db.budgets ++
          [⟨freshId (db.budgets.map (fun b => b.id)), category_id, month_str,
            budget_amount⟩] },
       true)

/-- The category-reference validation shared by `add_transaction` and
`update_transaction`: a supplied category id that does not exist is cleared
to NULL instead of failing the write. -/
def validateCategoryRef (db : DB) (category_id : Option Nat) : Option Nat :=
  match category_id with
  | none => none
  | some c => if (findCategory db c).isSome then some c else none

/-- `add_transaction(account_id, date_str, description, amount, category_id)`
from `database.py`: trim the description, quantize the amount, clear a
dangling category reference to NULL, then `INSERT`.  A missing account makes
the `FOREIGN KEY (account_id)` constraint fire (`IntegrityError`), which the
function catches and reports as `None` with the state rolled back. -/
def add_transaction (db : DB) (account_id : Nat) (date_str description : String)
    (amount : ℚ) (category_id : Option Nat) : DB × Option Nat :=
  let cleaned_desc := pyStrip description
  let amount_quantized := quantize2 amount
  let cat := validateCategoryRef db category_id
  if (findAccount db account_id).isSome then
    let new_id := freshId (db.transactions.map (fun t => t.id))
    ({ db with transactions := db.transactions ++
        [⟨new_id, account_id, date_str, cleaned_desc, amount_quantized, cat⟩] },
     some new_id)
  else (db, none)

/-- `update_transaction(transaction_id, account_id, date_str, description,
amount, category_id)` from `database.py`: same field preparation as
`add_transaction`, then `UPDATE … WHERE id = ?`.  A missing transaction id
matches no row (`rowcount == 0` → `False`); an existing row with a missing
account makes the foreign key fire (`IntegrityError` → rollback, `False`). -/
def update_transaction (db : DB) (transaction_id account_id : Nat)
    (date_str description : String) (amount : ℚ) (category_id : Option Nat) :
    DB × Bool :=
  let cleaned_desc := pyStrip description
  let amount_quantized := quantize2 amount
  let cat := validateCategoryRef db category_id
  if (findTxn db transaction_id).isSome then
    if (findAccount db account_id).isSome then
      ({ db with transactions := db.transactions.map (fun t =>
          if t.id == transaction_id then
            ⟨t.id, account_id, date_str, cleaned_desc, amount_quantized, cat⟩
          else t) },
       true)
    else (db, false)
  else (db, false)

/-- `delete_transaction(transaction_id)` from `database.py`:
`DELETE FROM transactions WHERE id = ?`, reporting `rowcount > 0`. -/
def delete_transaction (db : DB) (transaction_id : Nat) : DB × Bool :=
  ({ db with transactions :=
      db.transactions.filter (fun t => t.id != transaction_id) },
   db.transactions.any (fun t => t.id == transaction_id))

/-- `add_account(name, initial_balance)` from `database.py`: trim the name,
quantize the balance, `INSERT`.  A duplicate name under `UNIQUE COLLATE
NOCASE` raises `IntegrityError`, caught and reported as `None`. -/
def add_account (db : DB) (name : String) (initial_balance : ℚ) :
    DB × Option Nat :=
  let cleaned_name := pyStrip name
  let balance_quantized := quantize2 initial_balance
  if db.accounts.any (fun a => nocaseEq a.name cleaned_name) then (db, none)
  else
    let new_id := freshId (db.accounts.map (fun a => a.id))
    ({ db with accounts := db.accounts ++
        [⟨new_id, cleaned_name, balance_quantized⟩] },
     some new_id)

/-- The `except sqlite3.Error` path of `set_budget`: the transaction is
rolled back by `get_db_connection` and the function returns `False`.  This
models a run hit by an underlying storage fault. -/
def set_budget_storage_fault (db : DB) (_category_id : Nat)
    (_month_str : String) (_amount : ℚ) : DB × Bool :=
  (db, false)

/-- The `except sqlite3.Error` path of `add_account`: rollback and
`return None`.  This models a run hit by an underlying storage fault. -/
def add_account_storage_fault (db : DB) (_name : String)
    (_initial_balance : ℚ) : DB × Option Nat :=
  (db, none)

/-- The `WHERE` filter of `get_spending_by_category`:
`CAST(t.amount AS REAL) < 0 AND t.date BETWEEN ? AND ?`.  The cast to REAL is
only a sign test, modelled exactly on the rational amount; `BETWEEN` on TEXT
dates is the byte-wise (lexicographic) string order, inclusive at both
ends. -/
def spendingQualifies (start_date end_date : String) (t : Txn) : Bool :=
  decide (t.amount < 0) && decide (start_date ≤ t.date) &&
    decide (t.date ≤ end_date)

/-- The transactions the reporting query aggregates over. -/
def qualifyingTxns (db : DB) (start_date end_date : String) : List Txn :=
  db.transactions.filter (spendingQualifies start_date end_date)

/-- `IFNULL(c.name, 'Uncategorized')` over the `LEFT JOIN`: the category name
when the reference resolves, `Uncategorized` when the reference is NULL (or
dangling, in which case the join also produces NULL). -/
def displayName (db : DB) (t : Txn) : String :=
  match t.category_id with
  | none => "Uncategorized"
  | some cid =>
    match findCategory db cid with
    | none => "Uncategorized"
    | some c => c.name

/-- `SUM(t.amount)` of one `GROUP BY category_name` group. -/
def groupSum (db : DB) (start_date end_date n : String) : ℚ :=
  (((qualifyingTxns db start_date end_date).filter
      (fun t => displayName db t == n)).map (fun t => t.amount)).sum

/-- The `HAVING SUM(t.amount) < '0'` clause.  Neither operand has a column
affinity, so SQLite compares storage classes: the numeric `SUM` result is
always ordered before the TEXT value `'0'`, making the clause true for every
group (harmless here, since the `WHERE` filter already makes every group sum
negative). -/
def havingSumLtZero (_group_sum : ℚ) : Bool :=
  true

/-- `ORDER BY ABS(SUM(t.amount)) DESC`: the row with the larger magnitude
comes first. -/
def spendOrder (a b : String × ℚ) : Prop :=
  |b.2| ≤ |a.2|

instance : DecidableRel spendOrder :=
  fun a b => inferInstanceAs (Decidable (|b.2| ≤ |a.2|))

/-- `get_spending_by_category(start_date, end_date)` from `database.py`:
run the grouping query (filter, group by display name, `HAVING`, order by
magnitude descending), then the Python loop quantizes the absolute value of
each group sum and keeps only strictly positive results, in query order. -/
def get_spending_by_category (db : DB) (start_date end_date : String) :
    List (String × ℚ) :=
  let qualifying := qualifyingTxns db start_date end_date
  let grouped := ((qualifying.map (displayName db)).dedup).map
    (fun n => (n, groupSum db start_date end_date n))
  let grouped := grouped.filter (fun g => havingSumLtZero g.2)
  let ordered := List.insertionSort spendOrder grouped
  (ordered.map (fun g => (g.1, quantize2 |g.2|))).filter
    (fun g => decide (0 < g.2))

/-!  The monetary text parser of `src/main.py`
(`_parse_decimal_from_str`). -/

/-- Read an optional leading sign; `true` means negative. -/
def readSign : List Char → Bool × List Char
  | '+' :: rest => (false, rest)
  | '-' :: rest => (true, rest)
  | cs => (false, cs)

/-- Split at the first `e`/`E` (the exponent marker of a `Decimal`
literal). -/
def splitExp : List Char → List Char × Option (List Char)
  | [] => ([], none)
  | c :: rest =>
    if c = 'e' ∨ c = 'E' then ([], some rest)
    else
      let (m, x) := splitExp rest
      (c :: m, x)

/-- Split at the first `.`. -/
def splitDot : List Char → List Char × Option (List Char)
  | [] => ([], none)
  | c :: rest =>
    if c = '.' then ([], some rest)
    else
      let (m, x) := splitDot rest
      (c :: m, x)

/-- Numeric value of a digit string. -/
def digitsVal (cs : List Char) : Nat :=
  cs.foldl (fun n c => n * 10 + (c.toNat - '0'.toNat)) 0

/-- Parse the mantissa of a `Decimal` literal: digits with at most one `.`,
at least one digit overall (`'5.'` and `'.5'` are valid, `'.'` and `''` are
not). -/
def parseMantissa (cs : List Char) : Option ℚ :=
  let (ip, fp?) := splitDot cs
  let fp := fp?.getD []
  if ip.all Char.isDigit && fp.all Char.isDigit &&
      !(ip.isEmpty && fp.isEmpty) then
    some ((digitsVal ip * 10 ^ fp.length + digitsVal fp : ℚ) / 10 ^ fp.length)
  else none

/-- Parse the exponent part (after `e`/`E`): optional sign, then at least
one digit. -/
def parseExp (cs : List Char) : Option ℤ :=
  let (neg, rest) := readSign cs
  if !rest.isEmpty && rest.all Char.isDigit then
    some (if neg then -(digitsVal rest : ℤ) else (digitsVal rest : ℤ))
  else none

/-- The first codepoint of every run of ten consecutive Unicode decimal
digits (`Numeric_Type=Decimal`, Unicode 14.0): each base codepoint has
digit value 0 and `base + d` has digit value `d`.  This is the digit set
CPython's `Decimal` constructor transcribes to ASCII
(`Py_UNICODE_TODECIMAL`). -/
def decimalDigitBases : List Nat :=
  [48, 1632, 1776, 1984, 2406, 2534, 2662, 2790, 2918, 3046, 3174, 3302,
   3430, 3558, 3664, 3792, 3872, 4160, 4240, 6112, 6160, 6470, 6608, 6784,
   6800, 6992, 7088, 7232, 7248, 42528, 43216, 43264, 43472, 43504, 43600,
   44016, 65296, 66720, 68912, 69734, 69872, 69942, 70096, 70384, 70736,
   70864, 71248, 71360, 71472, 71904, 72016, 72784, 73040, 73120, 92768,
   92864, 93008, 120782, 120792, 120802, 120812, 120822, 123200, 123632,
   125264, 130032]

/-- The numeric value of a Unicode decimal digit, `none` for any other
character. -/
def decimalDigitVal (c : Char) : Option Nat :=
  (decimalDigitBases.find? (fun b => b ≤ c.toNat && c.toNat < b + 10)).map
    (fun b => c.toNat - b)

/-- Transcribe a Unicode decimal digit to its ASCII digit (the
`Py_UNICODE_TODECIMAL` pass of CPython's `Decimal` constructor); every
other character is kept unchanged. -/
def toAsciiDigit (c : Char) : Char :=
  match decimalDigitVal c with
  | some d => Char.ofNat (48 + d)
  | none => c

/-- `Decimal(s)` on an already-stripped string, for finite numeric values,
following CPython's constructor: digit-grouping underscores are removed
throughout the string, every Unicode decimal digit is transcribed to its
ASCII digit, and the result must match optional sign, mantissa (digits with
at most one point and at least one digit), optional exponent.  `none` models
the `InvalidOperation` raised on malformed text.  (The special values
`NaN`/`Infinity` that the constructor also accepts are not finite numbers
and have no rational counterpart; no claim below exercises them.) -/
def parseDecimalLit (s : String) : Option ℚ :=
  let ascii := (s.data.filter (fun c => c != '_')).map toAsciiDigit
  let (neg, cs) := readSign ascii
  let (mant, exp?) := splitExp cs
  match parseMantissa mant with
  | none => none
  | some m =>
    match exp? with
    | none => some (if neg then -m else m)
    | some ecs =>
      match parseExp ecs with
      | none => none
      | some e =>
        let v := if 0 ≤ e then m * 10 ^ e.toNat else m / 10 ^ (-e).toNat
        some (if neg then -v else v)

/-- Python `str.replace(',', '.')` for the single-character pattern: replace
every comma by a dot. -/
def commaToDot (s : String) : String :=
  ⟨s.data.map (fun c => if c = ',' then '.' else c)⟩

/-- `_parse_decimal_from_str(value_str, default)` from `main.py`: `None` and
whitespace-only input yield the default, otherwise the stripped text with
commas turned into dots is handed to `Decimal`, whose parse failure also
yields the default.  Every caller in `main.py` uses the default
`Decimal('0.00')`, i.e. `0`. -/
def parse_decimal_from_str (value_str : Option String) (default : ℚ) : ℚ :=
  match value_str with
  | none => default
  | some s =>
    let cleaned_str := pyStrip s
    if cleaned_str = "" then default
    else
      match parseDecimalLit (commaToDot cleaned_str) with
      | none => default
      | some q => q

/-! ### General facts about the rounding operation -/

theorem floor_intCast_add_half (n : ℤ) : ⌊(n : ℚ) + 1/2⌋ = n := by
  rw [Int.floor_eq_iff]
  constructor
  · linarith
  · linarith

theorem roundHalfUp_intCast (n : ℤ) : roundHalfUp (n : ℚ) = n := by
  unfold roundHalfUp
  by_cases h : (0 : ℚ) ≤ (n : ℚ)
  · rw [if_pos h, floor_intCast_add_half]
  · rw [if_neg h, show (-(n:ℚ)) = ((-n : ℤ) : ℚ) by push_cast; ring,
      floor_intCast_add_half, neg_neg]

/-- Quantization is the identity on values that already have (at most)
2 fractional digits. -/
theorem quantize2_eq_self (x : ℚ) (n : ℤ) (h : x = (n : ℚ) / 100) :
    quantize2 x = x := by
  subst h
  unfold quantize2
  rw [show (100 : ℚ) * ((n : ℚ) / 100) = (n : ℚ) by field_simp,
    roundHalfUp_intCast]

theorem roundHalfUp_mono {x y : ℚ} (h : x ≤ y) :
    roundHalfUp x ≤ roundHalfUp y := by
  unfold roundHalfUp
  by_cases hx : (0 : ℚ) ≤ x
  · rw [if_pos hx, if_pos (le_trans hx h)]
    exact Int.floor_le_floor (by linarith)
  · rw [if_neg hx]
    by_cases hy : (0 : ℚ) ≤ y
    · rw [if_pos hy]
      have h1 : (0 : ℤ) ≤ ⌊-x + 1/2⌋ := Int.floor_nonneg.mpr (by linarith)
      have h2 : (0 : ℤ) ≤ ⌊y + 1/2⌋ := Int.floor_nonneg.mpr (by linarith)
      omega
    · rw [if_neg hy]
      exact neg_le_neg (Int.floor_le_floor (by linarith))

theorem quantize2_mono {x y : ℚ} (h : x ≤ y) : quantize2 x ≤ quantize2 y := by
  unfold quantize2
  have hr := roundHalfUp_mono (mul_le_mul_of_nonneg_left h (by norm_num : (0:ℚ) ≤ 100))
  have hc : ((roundHalfUp (100 * x) : ℤ) : ℚ) ≤ ((roundHalfUp (100 * y) : ℤ) : ℚ) :=
    Int.cast_le.mpr hr
  linarith

/-! ### A sample store used to instantiate the theorems below -/

/-- A small concrete store: one funded account, one empty account, the seeded
`Uncategorized` category plus an expense and an income category, and two
transactions on account 1 (an expense of 25.50 and an income of 1000.00). -/
def sampleDB : DB :=
  { accounts := [⟨1, "Checking", 100⟩, ⟨2, "Empty", 0⟩],
    categories := [⟨1, "Uncategorized", "expense"⟩, ⟨2, "Food", "expense"⟩,
      ⟨3, "Salary", "income"⟩],
    transactions := [⟨1, 1, "2024-01-05", "groceries", -(51/2), some 2⟩,
      ⟨2, 1, "2024-01-10", "pay", 1000, some 3⟩],
    budgets := [] }

/-! ### The claims -/

/-- C1: for every account present in the store,
`get_account_current_balance` returns the account's initial balance plus the
exact sum of the amounts of its transactions, quantized to 2 decimal places
with round-half-up once at the end (not per addition), for any transaction
history including the empty one. -/
theorem current_balance_is_initial_plus_sum (db : DB) (account_id : Nat)
    (a : Account) (h : findAccount db account_id = some a) :
    get_account_current_balance db account_id =
      quantize2 (a.initial_balance +
        ((db.transactions.filter (fun t => t.account_id == account_id)).map
          (fun t => t.amount)).sum) := by
  unfold get_account_current_balance
  rw [h]
  by_cases he :
      (db.transactions.filter (fun t => t.account_id == account_id)).isEmpty
  · have hnil := List.isEmpty_iff.mp he
    simp [hnil]
  · simp [he]

/-- Witness for C1 at a concrete store: account 1 has initial balance 100
and transactions -25.50 and 1000.00, so its current balance is 1074.50. -/
theorem current_balance_is_initial_plus_sum_witness :
    findAccount sampleDB 1 = some ⟨1, "Checking", 100⟩ ∧
    get_account_current_balance sampleDB 1 = 2149/2 := by
  refine ⟨rfl, ?_⟩
  have h := current_balance_is_initial_plus_sum sampleDB 1 ⟨1, "Checking", 100⟩ rfl
  rw [h]
  show quantize2 (100 + (-(51/2) + (1000 + 0))) = 2149/2
  rw [quantize2_eq_self _ 107450 (by norm_num)]
  norm_num

/-- C9: deleting a transaction id that is absent from the table reports
`False` ("not found", not a raised error) and leaves the transactions table
exactly as it was. -/
theorem delete_transaction_missing_id (db : DB) (transaction_id : Nat)
    (h : ∀ t ∈ db.transactions, t.id ≠ transaction_id) :
    delete_transaction db transaction_id = (db, false) := by
  unfold delete_transaction
  have h1 : db.transactions.filter (fun t => t.id != transaction_id) =
      db.transactions :=
    List.filter_eq_self.mpr (fun t ht => by simp [h t ht])
  have h2 : db.transactions.any (fun t => t.id == transaction_id) = false := by
    rw [List.any_eq_false]
    intro t ht
    simp [h t ht]
  rw [h1, h2]

/-- Witness for C9: id 99 is absent from the sample store; deleting it
returns `False` and the store is untouched. -/
theorem delete_transaction_missing_id_witness :
    (∀ t ∈ sampleDB.transactions, t.id ≠ 99) ∧
    delete_transaction sampleDB 99 = (sampleDB, false) :=
  ⟨by decide, delete_transaction_missing_id sampleDB 99 (by decide)⟩

/-- C10: for an account id not present in the accounts table,
`get_account_current_balance` returns exactly 0.00 — the same value it
returns for an existing account whose initial balance and transaction sum
are zero — so this function's caller cannot tell a missing account from a
zero-balance account. -/
theorem missing_account_balance_indistinguishable_from_zero :
    (∀ (db : DB) (account_id : Nat), findAccount db account_id = none →
      get_account_current_balance db account_id = 0) ∧
    (∀ (db : DB) (account_id : Nat) (a : Account),
      findAccount db account_id = some a → a.initial_balance = 0 →
      ((db.transactions.filter (fun t => t.account_id == account_id)).map
        (fun t => t.amount)).sum = 0 →
      get_account_current_balance db account_id = 0) := by
  constructor
  · intro db account_id h
    unfold get_account_current_balance
    rw [h]
  · intro db account_id a h hinit hsum
    unfold get_account_current_balance
    rw [h]
    by_cases he :
        (db.transactions.filter (fun t => t.account_id == account_id)).isEmpty
    · simp only [he, if_true, hinit]
      exact quantize2_eq_self _ 0 (by norm_num)
    · simp only [he, if_false, hinit, hsum, add_zero]
      exact quantize2_eq_self _ 0 (by norm_num)

instance : IsTotal (String × ℚ) spendOrder :=
  ⟨fun _ _ => le_total _ _⟩

instance : IsTrans (String × ℚ) spendOrder :=
  ⟨fun _ _ _ h1 h2 => le_trans h2 h1⟩

/-- The `HAVING` clause never removes a group (see `havingSumLtZero`). -/
theorem filter_having (l : List (String × ℚ)) :
    l.filter (fun g => havingSumLtZero g.2) = l :=
  List.filter_eq_self.mpr (fun _ _ => rfl)

theorem sum_neg_of_all_neg (l : List ℚ) (hne : l ≠ [])
    (h : ∀ x ∈ l, x < 0) : l.sum < 0 := by
  induction l with
  | nil => exact absurd rfl hne
  | cons a t ih =>
    rw [List.sum_cons]
    rcases List.eq_nil_or_concat t with ht | _
    · subst ht
      simpa using h a (by simp)
    · have ht : t ≠ [] := by
        rintro rfl
        simp_all
      have := ih ht (fun x hx => h x (List.mem_cons_of_mem a hx))
      have ha := h a (List.mem_cons_self a t)
      linarith

theorem qualifying_amount_neg (db : DB) (start_date end_date : String)
    (t : Txn) (ht : t ∈ qualifyingTxns db start_date end_date) :
    t.amount < 0 := by
  rw [qualifyingTxns] at ht
  have := (List.mem_filter.mp ht).2
  rw [spendingQualifies, Bool.and_eq_true, Bool.and_eq_true] at this
  exact of_decide_eq_true this.1.1

/-- Every group the reporting query aggregates sums to a negative value:
its members are the qualifying (negative-amount, in-range) transactions
displaying that category name. -/
theorem groupSum_neg (db : DB) (start_date end_date n : String)
    (hn : n ∈ (qualifyingTxns db start_date end_date).map (displayName db)) :
    groupSum db start_date end_date n < 0 := by
  obtain ⟨t, ht, hdn⟩ := List.mem_map.mp hn
  rw [groupSum]
  apply sum_neg_of_all_neg
  · apply List.ne_nil_of_mem (a := t.amount)
    exact List.mem_map_of_mem _ (List.mem_filter.mpr ⟨ht, by simp [hdn]⟩)
  · intro x hx
    obtain ⟨u, hu, hux⟩ := List.mem_map.mp hx
    rw [← hux]
    exact qualifying_amount_neg db start_date end_date u
      (List.mem_filter.mp hu).1

/-- C8: over any inclusive date range, `get_spending_by_category` returns
exactly one entry per category name displayed by some negative-amount
transaction in the range, carrying the negated (absolute) group sum
quantized to 2 decimals, with groups whose quantized result is not
strictly positive discarded; and the returned list is ordered descending
by magnitude. -/
theorem get_spending_by_category_spec (db : DB)
    (start_date end_date : String) :
    (∀ (n : String) (q : ℚ),
      (n, q) ∈ get_spending_by_category db start_date end_date ↔
        (n ∈ (qualifyingTxns db start_date end_date).map (displayName db) ∧
         q = quantize2 (-(groupSum db start_date end_date n)) ∧ 0 < q)) ∧
    (get_spending_by_category db start_date end_date).Pairwise
      (fun a b => b.2 ≤ a.2) := by
  have habs : ∀ n ∈ (qualifyingTxns db start_date end_date).map
      (displayName db),
      |groupSum db start_date end_date n| =
        -(groupSum db start_date end_date n) := by
    intro n hn
    exact abs_of_neg (groupSum_neg db start_date end_date n hn)
  have hrun : get_spending_by_category db start_date end_date =
      ((List.insertionSort spendOrder
        ((((qualifyingTxns db start_date end_date).map
          (displayName db)).dedup).map
            (fun n => (n, groupSum db start_date end_date n)))).map
        (fun g => (g.1, quantize2 |g.2|))).filter
          (fun g => decide (0 < g.2)) := by
    rw [get_spending_by_category]
    rw [filter_having]
  constructor
  · intro n q
    rw [hrun]
    constructor
    · intro hmem
      obtain ⟨hmem1, hq⟩ := List.mem_filter.mp hmem
      obtain ⟨g, hg, hfg⟩ := List.mem_map.mp hmem1
      have hg' := (List.perm_insertionSort spendOrder _).mem_iff.mp hg
      obtain ⟨n', hn', hgn'⟩ := List.mem_map.mp hg'
      rw [← hgn'] at hfg
      have hn2 : n' = n := congrArg Prod.fst hfg
      subst hn2
      have hq2 : q = quantize2 |groupSum db start_date end_date n'| :=
        (congrArg Prod.snd hfg).symm
      have hnames : n' ∈ (qualifyingTxns db start_date end_date).map
          (displayName db) := List.mem_dedup.mp hn'
      refine ⟨hnames, ?_, ?_⟩
      · rw [hq2, habs n' hnames]
      · exact of_decide_eq_true hq
    · rintro ⟨hnames, hq, hqpos⟩
      apply List.mem_filter.mpr
      constructor
      · apply List.mem_map.mpr
        refine ⟨(n, groupSum db start_date end_date n), ?_, ?_⟩
        · apply (List.perm_insertionSort spendOrder _).mem_iff.mpr
          exact List.mem_map_of_mem _ (List.mem_dedup.mpr hnames)
        · rw [habs n hnames, ← hq]
      · exact decide_eq_true hqpos
  · rw [hrun]
    apply List.Pairwise.filter
    rw [List.pairwise_map]
    have hsorted : (List.insertionSort spendOrder
        ((((qualifyingTxns db start_date end_date).map
          (displayName db)).dedup).map
            (fun n => (n, groupSum db start_date end_date n)))).Pairwise
        spendOrder :=
      List.sorted_insertionSort spendOrder _
    exact hsorted.imp (fun h => quantize2_mono h)

/-- Counterexample to C7: the outcome is not tri-state at the caller
boundary.  A business-rule decline and a storage fault produce the same
returned value: `set_budget` declined for the malformed month `2024/01`
returns `False`, exactly what a faulted run returns; `add_account` declined
for the duplicate name `Checking` returns `None`, exactly what a faulted
run returns.  The caller cannot distinguish the two runs of either pair. -/
theorem declined_vs_faulted_counterexample :
    (set_budget sampleDB 2 ("2024/01") 10).2 =
      (set_budget_storage_fault sampleDB 2 ("2024-01") 10).2 ∧
    (set_budget sampleDB 2 ("2024/01") 10).2 = false ∧
    (add_account sampleDB ("Checking") 0).2 =
      (add_account_storage_fault sampleDB ("Fresh") 0).2 ∧
    (add_account sampleDB ("Checking") 0).2 = none :=
  ⟨rfl, rfl, rfl, rfl⟩

/-- C7 (amended): each repository operation distinguishes success from
non-success only; a business-rule decline and a storage fault both map to
the operation's failure value (`False` for `set_budget`, `None` for
`add_account`), so the two are not distinguishable from the returned value
alone. -/
theorem declined_and_faulted_indistinguishable (db : DB) (category_id : Nat)
    (month_str : String) (amount : ℚ) (name : String)
    (initial_balance : ℚ) :
    (set_budget_storage_fault db category_id month_str amount).2 = false ∧
    (add_account_storage_fault db name initial_balance).2 = none ∧
    (monthOk month_str = false →
      (set_budget db category_id month_str amount).2 =
        (set_budget_storage_fault db category_id month_str amount).2) ∧
    (db.accounts.any (fun a => nocaseEq a.name (pyStrip name)) = true →
      (add_account db name initial_balance).2 =
        (add_account_storage_fault db name initial_balance).2) := by
  refine ⟨rfl, rfl, ?_, ?_⟩
  · intro hm
    rcases hfc : findCategory db category_id with _ | cat
    · simp [set_budget, set_budget_storage_fault, hfc]
    · by_cases hexp : cat.ctype = "expense"
      · simp [set_budget, set_budget_storage_fault, hfc, hexp, hm]
      · simp [set_budget, set_budget_storage_fault, hfc, hexp]
  · intro hdup
    simp [add_account, add_account_storage_fault, hdup]

/-- Witness for the amended C7 in the sample store: the month `2024/01`
fails the shape check and the name `checking` collides case-insensitively
with the existing account, and both declines return the fault value. -/
theorem declined_and_faulted_indistinguishable_witness :
    (set_budget_storage_fault sampleDB 2 ("2024/01") 10).2 = false ∧
    (add_account_storage_fault sampleDB ("checking") 0).2 = none ∧
    monthOk ("2024/01") = false ∧
    (set_budget sampleDB 2 ("2024/01") 10).2 =
      (set_budget_storage_fault sampleDB 2 ("2024/01") 10).2 ∧
    sampleDB.accounts.any
      (fun a => nocaseEq a.name (pyStrip ("checking"))) = true ∧
    (add_account sampleDB ("checking") 0).2 =
      (add_account_storage_fault sampleDB ("checking") 0).2 := by
  have h := declined_and_faulted_indistinguishable sampleDB 2 ("2024/01") 10
    ("checking") 0
  exact ⟨h.1, h.2.1, by decide, h.2.2.1 (by decide), by decide,
    h.2.2.2 (by decide)⟩

theorem isPySpace_commaDot (c : Char) :
    isPySpace (if c = ',' then '.' else c) = isPySpace c := by
  by_cases h : c = ','
  · subst h
    rfl
  · rw [if_neg h]

theorem pyStrip_commaToDot (s : String) :
    pyStrip (commaToDot s) = commaToDot (pyStrip s) := by
  have hpf : isPySpace ∘ (fun c => if c = ',' then '.' else c) = isPySpace :=
    funext isPySpace_commaDot
  unfold pyStrip commaToDot
  rw [List.dropWhile_map, hpf, ← List.map_reverse, List.dropWhile_map, hpf,
    ← List.map_reverse]

theorem commaToDot_idem (s : String) :
    commaToDot (commaToDot s) = commaToDot s := by
  unfold commaToDot
  rw [List.map_map]
  have : ((fun c => if c = ',' then '.' else c) ∘
      (fun c => if c = ',' then '.' else c)) =
      (fun c => if c = ',' then '.' else c) := by
    funext c
    by_cases h : c = ','
    · simp [h]
    · simp [h]
  rw [this]

theorem commaToDot_empty_iff (s : String) : commaToDot s = "" ↔ s = "" := by
  unfold commaToDot
  rw [String.ext_iff, String.ext_iff]
  simp

/-- C6: the monetary text parser is total (in this model it is a function,
so it can never raise), trims whitespace, treats `,` like `.`, and falls
back to the supplied default — `Decimal('0.00')`, i.e. `0`, at every call
site in `main.py` — whenever the input is `None`, whitespace-only, or not
parseable as a decimal literal. -/
theorem parse_decimal_from_str_spec :
    (∀ d : ℚ, parse_decimal_from_str none d = d) ∧
    (∀ (s : String) (d : ℚ), pyStrip s = "" →
      parse_decimal_from_str (some s) d = d) ∧
    (∀ (s : String) (d : ℚ),
      parseDecimalLit (commaToDot (pyStrip s)) = none →
      parse_decimal_from_str (some s) d = d) ∧
    (∀ (s : String) (d q : ℚ),
      parseDecimalLit (commaToDot (pyStrip s)) = some q →
      parse_decimal_from_str (some s) d = q) ∧
    (∀ (s : String) (d : ℚ),
      parse_decimal_from_str (some s) d =
        parse_decimal_from_str (some (commaToDot s)) d) := by
  refine ⟨fun d => rfl, ?_, ?_, ?_, ?_⟩
  · intro s d h
    simp [parse_decimal_from_str, h]
  · intro s d h
    by_cases he : pyStrip s = ""
    · simp [parse_decimal_from_str, he]
    · simp [parse_decimal_from_str, he, h]
  · intro s d q h
    by_cases he : pyStrip s = ""
    · rw [he] at h
      rw [show parseDecimalLit (commaToDot ("")) = none from rfl] at h
      cases h
    · simp [parse_decimal_from_str, he, h]
  · intro s d
    have hps := pyStrip_commaToDot s
    by_cases he : pyStrip s = ""
    · have he2 : pyStrip (commaToDot s) = "" := by
        rw [hps, he]
        rfl
      simp [parse_decimal_from_str, he, he2]
    · have he2 : ¬ commaToDot (pyStrip s) = "" := fun hc =>
        he ((commaToDot_empty_iff _).mp hc)
      simp only [parse_decimal_from_str, if_neg he, hps, if_neg he2,
        commaToDot_idem]

/-- Witness for C6: `None`, whitespace-only and malformed inputs yield the
default 0; `"2,5"` parses like `"2.5"`, namely to 2.5; grouping underscores
(`"1_000,5"` → 1000.5), Arabic-Indic digits (`"١٢.٥"` → 12.5) and a leading
no-break space (U+00A0 then `"5.5"` → 5.5) all parse to their values rather than
falling back to the default. -/
theorem parse_decimal_from_str_spec_witness :
    parse_decimal_from_str none 0 = 0 ∧
    pyStrip ("   ") = "" ∧
    parse_decimal_from_str (some ("   ")) 0 = 0 ∧
    parseDecimalLit (commaToDot (pyStrip ("abc"))) = none ∧
    parse_decimal_from_str (some ("abc")) 0 = 0 ∧
    parse_decimal_from_str (some ("2.5")) 0 = 5/2 ∧
    parse_decimal_from_str (some ("2,5")) 0 =
      parse_decimal_from_str (some ("2.5")) 0 ∧
    parse_decimal_from_str (some ("1_000,5")) 0 = 2001/2 ∧
    parse_decimal_from_str (some ("١٢.٥")) 0 = 25/2 ∧
    parse_decimal_from_str (some ("\u00A05.5")) 0 = 11/2 := by
  refine ⟨parse_decimal_from_str_spec.1 0, rfl,
    parse_decimal_from_str_spec.2.1 ("   ") 0 rfl, rfl,
    parse_decimal_from_str_spec.2.2.1 ("abc") 0 rfl, ?_, ?_, ?_, ?_, ?_⟩
  · rw [parse_decimal_from_str_spec.2.2.2.1 ("2.5") 0
      ((2 * 10 ^ 1 + 5 : ℚ) / 10 ^ 1) rfl]
    norm_num
  · exact parse_decimal_from_str_spec.2.2.2.2 ("2,5") 0
  · rw [parse_decimal_from_str_spec.2.2.2.1 ("1_000,5") 0
      ((1000 * 10 ^ 1 + 5 : ℚ) / 10 ^ 1) rfl]
    norm_num
  · rw [parse_decimal_from_str_spec.2.2.2.1 ("١٢.٥") 0
      ((12 * 10 ^ 1 + 5 : ℚ) / 10 ^ 1) rfl]
    norm_num
  · rw [parse_decimal_from_str_spec.2.2.2.1 ("\u00A05.5") 0
      ((5 * 10 ^ 1 + 5 : ℚ) / 10 ^ 1) rfl]
    norm_num

/-- C2: the seeded `Uncategorized` category is protected: `update_category`
declines whenever the requested new name is `Uncategorized` (the code
compares the stripped name case-insensitively) or the target row's name is
`Uncategorized` (case-insensitively), and `delete_category` declines
whenever the target row's name is `Uncategorized`; in all these cases the
whole store — in particular the categories table — is unchanged. -/
theorem uncategorized_category_protected (db : DB) (category_id : Nat)
    (new_name new_type : String) :
    (pyLower (pyStrip new_name) = "uncategorized" →
      update_category db category_id new_name new_type = (db, false)) ∧
    (∀ c, findCategory db category_id = some c →
      pyLower c.name = "uncategorized" →
      update_category db category_id new_name new_type = (db, false) ∧
      delete_category db category_id = (db, false)) := by
  constructor
  · intro hnn
    simp only [update_category]
    by_cases h1 : pyStrip new_name = ""
    · rw [if_pos h1]
    · rw [if_neg h1, if_pos hnn]
  · intro c hc hname
    constructor
    · simp only [update_category]
      by_cases h1 : pyStrip new_name = ""
      · rw [if_pos h1]
      · rw [if_neg h1]
        by_cases h2 : pyLower (pyStrip new_name) = "uncategorized"
        · rw [if_pos h2]
        · rw [if_neg h2]
          by_cases h3 : ¬(pyLower (pyStrip new_type) = "expense" ∨
              pyLower (pyStrip new_type) = "income")
          · rw [if_pos h3]
          · rw [if_neg h3, hc]
            simp [hname]
    · simp only [delete_category, hc]
      simp [hname]

/-- Witness for C2: renaming any category to `Uncategorized` is declined;
updating or deleting the seeded `Uncategorized` row (id 1 in the sample
store) is declined; the store is unchanged each time. -/
theorem uncategorized_category_protected_witness :
    pyLower (pyStrip ("Uncategorized")) = "uncategorized" ∧
    update_category sampleDB 2 ("Uncategorized") ("expense") =
      (sampleDB, false) ∧
    findCategory sampleDB 1 = some ⟨1, "Uncategorized", "expense"⟩ ∧
    update_category sampleDB 1 ("Misc") ("expense") = (sampleDB, false) ∧
    delete_category sampleDB 1 = (sampleDB, false) := by
  have h2 := (uncategorized_category_protected sampleDB 2 ("Uncategorized")
    ("expense")).1 (by decide)
  have h3 := (uncategorized_category_protected sampleDB 1 ("Misc")
    ("expense")).2 ⟨1, "Uncategorized", "expense"⟩ rfl (by decide)
  exact ⟨by decide, h2, rfl, h3.1, h3.2⟩

theorem budgetKeyed_eq_true {c : Nat} {m : String} {b : Budget} :
    budgetKeyed c m b = true ↔ b.category_id = c ∧ b.month = m := by
  simp [budgetKeyed]

/-- C3: `set_budget` declines — returning `False` with the store unchanged —
exactly when the category id does not exist, or the category is not
expense-typed, or the month string fails the structural shape check
(length 7 with a hyphen at position 4); otherwise it reports success and
every budget row for that `(category, month)` key — of which there is at
least one — holds the amount clamped to a minimum of zero and quantized. -/
theorem set_budget_validation (db : DB) (category_id : Nat)
    (month_str : String) (amount : ℚ) :
    ((set_budget db category_id month_str amount).2 = false ↔
      findCategory db category_id = none ∨
      (∃ cat, findCategory db category_id = some cat ∧ cat.ctype ≠ "expense") ∨
      monthOk month_str = false) ∧
    ((set_budget db category_id month_str amount).2 = false →
      (set_budget db category_id month_str amount).1 = db) ∧
    ((set_budget db category_id month_str amount).2 = true →
      (∃ b ∈ (set_budget db category_id month_str amount).1.budgets,
        b.category_id = category_id ∧ b.month = month_str ∧
        b.amount = quantize2 (max 0 amount)) ∧
      ∀ b ∈ (set_budget db category_id month_str amount).1.budgets,
        b.category_id = category_id → b.month = month_str →
        b.amount = quantize2 (max 0 amount)) := by
  rcases hfc : findCategory db category_id with _ | cat
  · refine ⟨?_, ?_, ?_⟩
    · simp [set_budget, hfc]
    · intro _
      simp [set_budget, hfc]
    · intro habs
      rw [show (set_budget db category_id month_str amount).2 = false by
        simp [set_budget, hfc]] at habs
      exact absurd habs (by simp)
  · by_cases hexp : cat.ctype = "expense"
    · by_cases hm : monthOk month_str = true
      · -- all validation passes: the write succeeds
        by_cases hany : db.budgets.any (budgetKeyed category_id month_str) = true
        · have hrun : set_budget db category_id month_str amount =
              ({ db with budgets := db.budgets.map (fun b =>
                  if budgetKeyed category_id month_str b then
                    { b with amount := quantize2 (max 0 amount) }
                  else b) }, true) := by
            simp [set_budget, hfc, hexp, hm, hany]
          refine ⟨?_, ?_, ?_⟩
          · rw [hrun]
            simp only [Bool.true_eq_false, false_iff]
            push_neg
            refine ⟨by simp [hfc], ?_, by simp [hm]⟩
            intro cat' hcat'
            rw [← Option.some.inj hcat']
            exact hexp
          · intro hfalse
            rw [hrun] at hfalse
            exact absurd hfalse (by simp)
          · intro _
            rw [hrun]
            obtain ⟨b0, hb0, hkey⟩ := List.any_eq_true.mp hany
            obtain ⟨hbc, hbm⟩ := budgetKeyed_eq_true.mp hkey
            constructor
            · exact ⟨{ b0 with amount := quantize2 (max 0 amount) },
                List.mem_map.mpr ⟨b0, hb0, by simp [hkey]⟩, hbc, hbm, rfl⟩
            · intro b hb h1 h2
              obtain ⟨x, hx, hfx⟩ := List.mem_map.mp hb
              by_cases hkx : budgetKeyed category_id month_str x = true
              · simp only [hkey, hkx, if_true] at hfx
                rw [← hfx]
              · simp [hkx] at hfx
                subst hfx
                exact absurd (budgetKeyed_eq_true.mpr ⟨h1, h2⟩) hkx
        · have hrun : set_budget db category_id month_str amount =
              ({ db with budgets := db.budgets ++
                  [⟨freshId (db.budgets.map (fun b => b.id)), category_id,
                    month_str, quantize2 (max 0 amount)⟩] }, true) := by
            simp [set_budget, hfc, hexp, hm, hany]
          refine ⟨?_, ?_, ?_⟩
          · rw [hrun]
            simp only [Bool.true_eq_false, false_iff]
            push_neg
            refine ⟨by simp [hfc], ?_, by simp [hm]⟩
            intro cat' hcat'
            rw [← Option.some.inj hcat']
            exact hexp
          · intro hfalse
            rw [hrun] at hfalse
            exact absurd hfalse (by simp)
          · intro _
            rw [hrun]
            constructor
            · exact ⟨_, List.mem_append_right _ (List.mem_singleton.mpr rfl),
                rfl, rfl, rfl⟩
            · intro b hb h1 h2
              rcases List.mem_append.mp hb with hmem | hmem
              · have := List.any_eq_false.mp (by simpa using hany) b hmem
                exact absurd (budgetKeyed_eq_true.mpr ⟨h1, h2⟩) (by simpa using this)
              · rw [List.mem_singleton.mp hmem]
      · -- bad month shape
        have hrun : set_budget db category_id month_str amount = (db, false) := by
          simp [set_budget, hfc, hexp, hm]
        refine ⟨?_, fun _ => by rw [hrun], ?_⟩
        · rw [hrun]
          simp only [true_iff]
          right; right
          simpa using hm
        · intro htrue
          rw [hrun] at htrue
          exact absurd htrue (by simp)
    · -- category is not expense-typed
      have hrun : set_budget db category_id month_str amount = (db, false) := by
        simp [set_budget, hfc, hexp]
      refine ⟨?_, fun _ => by rw [hrun], ?_⟩
      · rw [hrun]
        simp only [true_iff]
        right; left
        exact ⟨cat, rfl, hexp⟩
      · intro htrue
        rw [hrun] at htrue
        exact absurd htrue (by simp)

/-- Witness for C3: in the sample store, a budget for income category 3 is
declined, a budget with month `2024/01` is declined (store unchanged), and a
budget of -5 for expense category 2 in month `2024-01` succeeds and is
stored clamped to 0.00. -/
theorem set_budget_validation_witness :
    (set_budget sampleDB 3 ("2024-01") 10).2 = false ∧
    (set_budget sampleDB 2 ("2024/01") 10).2 = false ∧
    (set_budget sampleDB 2 ("2024/01") 10).1 = sampleDB ∧
    (∃ b ∈ (set_budget sampleDB 2 ("2024-01") (-5)).1.budgets,
      b.category_id = 2 ∧ b.month = "2024-01" ∧
      b.amount = quantize2 (max 0 (-5))) := by
  refine ⟨?_, ?_, ?_, ?_⟩
  · exact (set_budget_validation sampleDB 3 ("2024-01") 10).1.mpr
      (Or.inr (Or.inl ⟨⟨3, "Salary", "income"⟩, rfl, by decide⟩))
  · exact (set_budget_validation sampleDB 2 ("2024/01") 10).1.mpr
      (Or.inr (Or.inr (by decide)))
  · exact (set_budget_validation sampleDB 2 ("2024/01") 10).2.1
      ((set_budget_validation sampleDB 2 ("2024/01") 10).1.mpr
        (Or.inr (Or.inr (by decide))))
  · refine ((set_budget_validation sampleDB 2 ("2024-01") (-5)).2.2 ?_).1
    have hm : monthOk ("2024-01") = true := by decide
    simp [set_budget, findCategory, sampleDB, List.find?, hm]

/-- The `UNIQUE (category_id, month)` constraint of the `budgets` table:
no two rows share a key. -/
def distinctKeys (l : List Budget) : Prop :=
  l.Pairwise (fun b1 b2 =>
    ¬(b1.category_id = b2.category_id ∧ b1.month = b2.month))

theorem filter_keyed_length_le_one (c : Nat) (m : String) (l : List Budget)
    (h : distinctKeys l) : (l.filter (budgetKeyed c m)).length ≤ 1 := by
  induction l with
  | nil => simp
  | cons a t ih =>
    rw [distinctKeys, List.pairwise_cons] at h
    by_cases hk : budgetKeyed c m a = true
    · rw [List.filter_cons_of_pos hk]
      have ht : t.filter (budgetKeyed c m) = [] := by
        rw [List.filter_eq_nil_iff]
        intro b hb hkb
        obtain ⟨h1, h2⟩ := budgetKeyed_eq_true.mp hkb
        obtain ⟨h3, h4⟩ := budgetKeyed_eq_true.mp hk
        exact h.1 b hb ⟨h3.trans h1.symm, h4.trans h2.symm⟩
      simp [ht]
    · rw [List.filter_cons_of_neg hk]
      exact ih h.2

theorem filter_keyed_map_update (c : Nat) (m : String) (A : ℚ)
    (l : List Budget) :
    (l.map (fun b => if budgetKeyed c m b then { b with amount := A }
      else b)).filter (budgetKeyed c m) =
    (l.filter (budgetKeyed c m)).map (fun b => { b with amount := A }) := by
  induction l with
  | nil => rfl
  | cons a t ih =>
    by_cases h : budgetKeyed c m a = true
    · rw [List.map_cons, if_pos h,
        List.filter_cons_of_pos (show budgetKeyed c m { a with amount := A } from h),
        List.filter_cons_of_pos h, List.map_cons, ih]
    · rw [List.map_cons, if_neg h, List.filter_cons_of_neg h,
        List.filter_cons_of_neg h, ih]

theorem updateKeyed_category_id (c : Nat) (m : String) (A : ℚ) (b : Budget) :
    ((if budgetKeyed c m b then { b with amount := A }
      else b) : Budget).category_id = b.category_id := by
  by_cases h : budgetKeyed c m b = true
  · rw [if_pos h]
  · rw [if_neg h]

theorem updateKeyed_month (c : Nat) (m : String) (A : ℚ) (b : Budget) :
    ((if budgetKeyed c m b then { b with amount := A }
      else b) : Budget).month = b.month := by
  by_cases h : budgetKeyed c m b = true
  · rw [if_pos h]
  · rw [if_neg h]

/-- A successful `set_budget` call leaves the categories table alone,
preserves the uniqueness of `(category_id, month)` keys, and leaves exactly
one row with the written key, holding the clamped quantized amount. -/
theorem set_budget_success_state (db : DB) (category_id : Nat)
    (month_str : String) (amount : ℚ) (cat : Category)
    (hfc : findCategory db category_id = some cat)
    (hexp : cat.ctype = "expense") (hm : monthOk month_str = true)
    (huniq : distinctKeys db.budgets) :
    (set_budget db category_id month_str amount).2 = true ∧
    (set_budget db category_id month_str amount).1.categories =
      db.categories ∧
    distinctKeys (set_budget db category_id month_str amount).1.budgets ∧
    ((set_budget db category_id month_str amount).1.budgets.filter
      (budgetKeyed category_id month_str)).length = 1 ∧
    ∀ b ∈ (set_budget db category_id month_str amount).1.budgets.filter
      (budgetKeyed category_id month_str),
      b.amount = quantize2 (max 0 amount) := by
  by_cases hany : db.budgets.any (budgetKeyed category_id month_str) = true
  · have hrun : set_budget db category_id month_str amount =
        ({ db with budgets := db.budgets.map (fun b =>
            if budgetKeyed category_id month_str b then
              { b with amount := quantize2 (max 0 amount) }
            else b) }, true) := by
      simp [set_budget, hfc, hexp, hm, hany]
    rw [hrun]
    refine ⟨rfl, rfl, ?_, ?_, ?_⟩
    · rw [distinctKeys, List.pairwise_map]
      refine huniq.imp ?_
      intro b1 b2 hne hcontra
      rw [updateKeyed_category_id, updateKeyed_category_id,
        updateKeyed_month, updateKeyed_month] at hcontra
      exact hne hcontra
    · rw [filter_keyed_map_update, List.length_map]
      have hle := filter_keyed_length_le_one category_id month_str
        db.budgets huniq
      obtain ⟨b0, hb0, hkey⟩ := List.any_eq_true.mp hany
      have hpos : 0 < (db.budgets.filter
          (budgetKeyed category_id month_str)).length :=
        List.length_pos.mpr (fun hnil => by
          have := List.mem_filter.mpr ⟨hb0, hkey⟩
          rw [hnil] at this
          exact absurd this (List.not_mem_nil b0))
      omega
    · intro b hb
      rw [filter_keyed_map_update] at hb
      obtain ⟨x, _, hfx⟩ := List.mem_map.mp hb
      rw [← hfx]
  · have hrun : set_budget db category_id month_str amount =
        ({ db with budgets := db.budgets ++
            [⟨freshId (db.budgets.map (fun b => b.id)), category_id,
              month_str, quantize2 (max 0 amount)⟩] }, true) := by
      simp [set_budget, hfc, hexp, hm, hany]
    rw [hrun]
    have hnotkeyed := List.any_eq_false.mp (by simpa using hany)
    have hfilnil : db.budgets.filter (budgetKeyed category_id month_str)
        = [] := by
      rw [List.filter_eq_nil_iff]
      intro b hb
      simpa using hnotkeyed b hb
    have hkeyednew : budgetKeyed category_id month_str
        ⟨freshId (db.budgets.map (fun b => b.id)), category_id, month_str,
          quantize2 (max 0 amount)⟩ = true := by
      simp [budgetKeyed]
    refine ⟨rfl, rfl, ?_, ?_, ?_⟩
    · rw [distinctKeys, List.pairwise_append]
      refine ⟨huniq, List.pairwise_singleton _ _, ?_⟩
      intro b1 hb1 b2 hb2 hcontra
      rw [List.mem_singleton.mp hb2] at hcontra
      exact absurd (budgetKeyed_eq_true.mpr ⟨hcontra.1, hcontra.2⟩)
        (by simpa using hnotkeyed b1 hb1)
    · rw [List.filter_append, hfilnil, List.nil_append,
        List.filter_cons_of_pos hkeyednew]
      simp
    · intro b hb
      rw [List.filter_append, hfilnil, List.nil_append,
        List.filter_cons_of_pos hkeyednew] at hb
      simp only [List.filter_nil] at hb
      rw [List.mem_singleton.mp hb]

/-- C4: `set_budget` is an upsert keyed by `(category_id, month)`: for an
existing expense category and a shape-valid month, setting the budget twice
leaves exactly one budget row with that key, and its stored amount comes
from the second call (clamped to zero and quantized).  The uniqueness
hypothesis is the `UNIQUE (category_id, month)` table constraint. -/
theorem set_budget_upsert (db : DB) (category_id : Nat) (month_str : String)
    (a1 a2 : ℚ) (cat : Category)
    (hfc : findCategory db category_id = some cat)
    (hexp : cat.ctype = "expense") (hm : monthOk month_str = true)
    (huniq : distinctKeys db.budgets) :
    (set_budget (set_budget db category_id month_str a1).1 category_id
      month_str a2).2 = true ∧
    ((set_budget (set_budget db category_id month_str a1).1 category_id
      month_str a2).1.budgets.filter
        (budgetKeyed category_id month_str)).length = 1 ∧
    ∀ b ∈ (set_budget (set_budget db category_id month_str a1).1 category_id
      month_str a2).1.budgets.filter (budgetKeyed category_id month_str),
      b.amount = quantize2 (max 0 a2) := by
  obtain ⟨-, hcats, huniq1, -, -⟩ :=
    set_budget_success_state db category_id month_str a1 cat hfc hexp hm huniq
  have hfc1 : findCategory (set_budget db category_id month_str a1).1
      category_id = some cat := by
    rw [findCategory, hcats]
    exact hfc
  obtain ⟨h1, -, -, h4, h5⟩ := set_budget_success_state
    (set_budget db category_id month_str a1).1 category_id month_str a2 cat
    hfc1 hexp hm huniq1
  exact ⟨h1, h4, h5⟩

/-- Witness for C4: setting the budget of expense category 2 for month
`2024-01` to 10 and then to 20 leaves exactly one row for that key, holding
the amount derived from the second call. -/
theorem set_budget_upsert_witness :
    (set_budget (set_budget sampleDB 2 ("2024-01") 10).1 2
      ("2024-01") 20).2 = true ∧
    ((set_budget (set_budget sampleDB 2 ("2024-01") 10).1 2
      ("2024-01") 20).1.budgets.filter (budgetKeyed 2 ("2024-01"))).length
      = 1 ∧
    ∀ b ∈ (set_budget (set_budget sampleDB 2 ("2024-01") 10).1 2
      ("2024-01") 20).1.budgets.filter (budgetKeyed 2 ("2024-01")),
      b.amount = quantize2 (max 0 20) :=
  set_budget_upsert sampleDB 2 ("2024-01") 10 20 ⟨2, "Food", "expense"⟩
    rfl rfl (by decide) (by simp [distinctKeys, sampleDB])

/-- Counterexample to C5 as stated: a call whose category id is dangling is
NOT always accepted — when the account id is dangling too, the insert is
rejected by the `account_id` foreign key (`IntegrityError` → `None`), and
nothing is written.  Here account 77 and category 99 are both absent from
the sample store, and `add_transaction` returns `None` with the store
unchanged instead of inserting the row. -/
theorem dangling_category_write_counterexample :
    add_transaction sampleDB 77 ("2024-03-01") ("coffee") 1 (some 99) =
      (sampleDB, none) ∧
    ¬ (∀ (db : DB) (account_id : Nat) (date_str description : String)
        (amount : ℚ) (c : Nat), findCategory db c = none →
        (add_transaction db account_id date_str description amount
          (some c)).2.isSome = true) := by
  have heval : add_transaction sampleDB 77 ("2024-03-01") ("coffee") 1
      (some 99) = (sampleDB, none) := by
    simp [add_transaction, validateCategoryRef, findCategory, findAccount,
      sampleDB, List.find?]
  refine ⟨heval, fun h => ?_⟩
  have hcall := h sampleDB 77 ("2024-03-01") ("coffee") 1 99 rfl
  rw [heval] at hcall
  exact absurd hcall (by simp)

/-- C5 (amended): provided the rest of the write is valid — the account id
exists, and for an update the transaction row exists — a supplied category
id that is absent from the categories table does not reject the write: the
row is inserted / updated with its category reference stored as NULL, and
all other fields stored as given (description trimmed, amount quantized). -/
theorem dangling_category_ref_write_proceeds (db : DB) (account_id : Nat)
    (date_str description : String) (amount : ℚ) (c : Nat)
    (hcat : findCategory db c = none) :
    ((findAccount db account_id).isSome = true →
      add_transaction db account_id date_str description amount (some c) =
        ({ db with transactions := db.transactions ++
            [⟨freshId (db.transactions.map (fun t => t.id)), account_id,
              date_str, pyStrip description, quantize2 amount, none⟩] },
         some (freshId (db.transactions.map (fun t => t.id))))) ∧
    (∀ transaction_id, (findTxn db transaction_id).isSome = true →
      (findAccount db account_id).isSome = true →
      update_transaction db transaction_id account_id date_str description
          amount (some c) =
        ({ db with transactions := db.transactions.map (fun t =>
            if t.id == transaction_id then
              ⟨t.id, account_id, date_str, pyStrip description,
                quantize2 amount, none⟩
            else t) },
         true)) := by
  constructor
  · intro hacc
    simp only [add_transaction, validateCategoryRef, hcat, Option.isSome_none,
      if_pos hacc]
    simp [hacc]
  · intro transaction_id htx hacc
    simp only [update_transaction, validateCategoryRef, hcat]
    simp [htx, hacc]

/-- Witness for the amended C5: in the sample store, category 99 is absent
while account 1 and transaction 1 exist, and both writes go through with a
NULL category reference. -/
theorem dangling_category_ref_write_proceeds_witness :
    findCategory sampleDB 99 = none ∧
    (findAccount sampleDB 1).isSome = true ∧
    (findTxn sampleDB 1).isSome = true ∧
    add_transaction sampleDB 1 ("2024-03-01") ("coffee") 1 (some 99) =
      ({ sampleDB with transactions := sampleDB.transactions ++
          [⟨3, 1, "2024-03-01", "coffee", quantize2 1, none⟩] },
       some 3) ∧
    update_transaction sampleDB 1 1 ("2024-03-02") ("tea") 2 (some 99) =
      ({ sampleDB with transactions :=
          [⟨1, 1, "2024-03-02", "tea", quantize2 2, none⟩,
           ⟨2, 1, "2024-01-10", "pay", 1000, some 3⟩] },
       true) := by
  have h := dangling_category_ref_write_proceeds sampleDB 1 ("2024-03-01")
    ("coffee") 1 99 rfl
  have h2 := (dangling_category_ref_write_proceeds sampleDB 1 ("2024-03-02")
    ("tea") 2 99 rfl).2 1 rfl rfl
  refine ⟨rfl, rfl, rfl, ?_, ?_⟩
  · rw [h.1 rfl]
    rfl
  · rw [h2]
    rfl

/-- Witness for C10: account id 9 is absent from the sample store and its
balance reads 0; account 2 exists with zero initial balance, no
transactions, and its balance also reads 0. -/
theorem missing_account_balance_indistinguishable_from_zero_witness :
    findAccount sampleDB 9 = none ∧
    get_account_current_balance sampleDB 9 = 0 ∧
    findAccount sampleDB 2 = some ⟨2, "Empty", 0⟩ ∧
    get_account_current_balance sampleDB 2 = 0 :=
  ⟨rfl,
   missing_account_balance_indistinguishable_from_zero.1 sampleDB 9 rfl,
   rfl,
   missing_account_balance_indistinguishable_from_zero.2 sampleDB 2
     ⟨2, "Empty", 0⟩ rfl rfl rfl⟩
